import Mathlib

/-!
Verification development for the attachment orchestrator in `ovs/bridge.go`
(repository dave-tucker/socketplane).

The Go source is shallowly embedded: pure computations (CIDR parsing in the
style of the Go standard library, hardware-address derivation, rule-argument
construction) become Lean functions; every external collaborator (route
overlap checker, kernel interface operations, the OVSDB control-plane
session, the address allocator, random bytes, iptables invocation) becomes a
field of an explicit environment record, and each orchestrator operation is
a pure function of that environment which also returns the trace of external
calls it issued.  Machine bytes are modelled as `Nat` values below 256.
-/

namespace OvsBridgeGo

/-- An IPv4 address as four bytes, modelling the 4-byte form of `net.IP`. -/
structure IPv4 where
  b0 : Nat
  b1 : Nat
  b2 : Nat
  b3 : Nat
deriving DecidableEq

/-- A CIDR network, modelling `net.IPNet` with a canonical ones-count mask:
the masked network address plus the number of leading one bits. -/
structure IPNet where
  ip : IPv4
  ones : Nat
deriving DecidableEq

instance : Inhabited IPNet := ⟨⟨⟨0, 0, 0, 0⟩, 0⟩⟩

/-- The `Bridge` struct of the source: name, assigned address, subnet.
`IP` and `Subnet` are pointers or slices in Go that start out nil, hence
`Option` here. -/
structure Bridge where
  Name : String
  IP : Option IPv4
  Subnet : Option IPNet
deriving DecidableEq

/-- The `OvsConnection` struct of the source (all fields are strings). -/
structure OvsConnection where
  Name : String
  Ip : String
  Subnet : String
  Mac : String
  Gateway : String
deriving DecidableEq

/-- Result of a Go call, distinguishing a returned error value from a
runtime panic caused by dereferencing a nil pointer. -/
inductive Outcome (α : Type) where
  | ok : α → Outcome α
  | err : String → Outcome α
  | nilDeref : Outcome α
deriving DecidableEq

/-- One kernel network-interface operation issued by `AddConnection`, with
its arguments, in the order the source passes them. -/
inductive NetOp where
  | setMtu : String → Nat → NetOp
  | interfaceUp : String → NetOp
  | setNamespacePid : String → Int → NetOp
  | interfaceDown : String → NetOp
  | changeName : String → String → NetOp
  | setIp : String → String → NetOp
  | setMac : String → String → NetOp
  | setDefaultGateway : String → String → NetOp
deriving DecidableEq, Inhabited

/-- One OVSDB control-plane call issued by the peer-tunnel operations. -/
inductive CpCall where
  | addVxlan : String → String → String → CpCall
  | delPort : String → String → CpCall
deriving DecidableEq

/-! ## Decimal and hexadecimal string helpers (Go stdlib behaviour) -/

/-- The hex digit table of the Go standard library. -/
def hexDigits : List Char := "0123456789abcdef".toList

def hexDigitChar (n : Nat) : Char := hexDigits.getD n '0'

/-- Model of `encoding/hex.EncodeToString`: two lowercase hex digits per byte. -/
def hexEncodeChars (bs : List Nat) : List Char :=
  bs.foldr (fun b acc => hexDigitChar (b / 16 % 16) :: hexDigitChar (b % 16) :: acc) []

/-- Model of `net.HardwareAddr.String`: hex bytes joined by colons. -/
def hwAddrString (bs : List Nat) : String :=
  String.intercalate ":"
    (bs.map (fun b => String.mk [hexDigitChar (b / 16 % 16), hexDigitChar (b % 16)]))

/-- Model of `net.IP.String` on a 4-byte address: dotted decimal. -/
def ipv4String (ip : IPv4) : String :=
  toString ip.b0 ++ "." ++ toString ip.b1 ++ "." ++ toString ip.b2 ++ "." ++ toString ip.b3

/-- Model of `String()` on a possibly-nil `net.IP` (Go prints `<nil>` for nil). -/
def ipString : Option IPv4 → String
  | none => "<nil>"
  | some ip => ipv4String ip

/-- Model of `net.IPNet.String` for a canonical CIDR mask: address slash ones. -/
def ipNetToString (n : IPNet) : String :=
  ipv4String n.ip ++ "/" ++ toString n.ones

/-- The digit-parsing loop of the Go stdlib `dtoi`: consume leading decimal
digits, returning the value, the count of digits consumed, the ok flag and
the remaining characters.  Overflow beyond the stdlib bound 0xFFFFFF makes
the parse fail, as in Go. -/
def dtoiGo : List Char → Nat → Nat → Nat × Nat × Bool × List Char
  | [], n, cnt => if cnt = 0 then (0, 0, false, []) else (n, cnt, true, [])
  | c :: rest, n, cnt =>
    if '0' ≤ c ∧ c ≤ '9' then
      let n2 := n * 10 + (c.toNat - '0'.toNat)
      if 0xFFFFFF ≤ n2 then (0xFFFFFF, cnt + 1, false, rest)
      else dtoiGo rest n2 (cnt + 1)
    else if cnt = 0 then (0, 0, false, c :: rest)
    else (n, cnt, true, c :: rest)

def dtoi (cs : List Char) : Nat × Nat × Bool × List Char := dtoiGo cs 0 0

/-- One dotted-decimal field of `parseIPv4`: a digit run with value at most
255, as in the Go stdlib (`!ok || n > 0xFF` rejects). -/
def parseField (cs : List Char) : Option (Nat × List Char) :=
  match dtoi cs with
  | (n, _, true, rest) => if n ≤ 0xFF then some (n, rest) else none
  | _ => none

def expectDot : List Char → Option (List Char)
  | '.' :: rest => some rest
  | _ => none

/-- The Go stdlib `parseIPv4`: exactly four dot-separated decimal fields
consuming the whole string. -/
def parseIPv4 (cs : List Char) : Option IPv4 := do
  let (a, r1) ← parseField cs
  let r1d ← expectDot r1
  let (b, r2) ← parseField r1d
  let r2d ← expectDot r2
  let (c, r3) ← parseField r2d
  let r3d ← expectDot r3
  let (d, r4) ← parseField r3d
  if r4 = [] then some ⟨a, b, c, d⟩ else none

/-- Split at the first slash, as `net.ParseCIDR` does. -/
def splitSlash : List Char → Option (List Char × List Char)
  | [] => none
  | '/' :: rest => some ([], rest)
  | c :: rest =>
    match splitSlash rest with
    | some (a, m) => some (c :: a, m)
    | none => none

/-- Byte `j` of a CIDR mask with `n` leading one bits (`net.CIDRMask`). -/
def maskByte (n j : Nat) : Nat :=
  if 8 * (j + 1) ≤ n then 255
  else if n ≤ 8 * j then 0
  else 256 - 2 ^ (8 - (n - 8 * j))

/-- Model of `ip.Mask(m)`: bytewise AND of the address with the CIDR mask. -/
def maskIPv4 (ip : IPv4) (n : Nat) : IPv4 :=
  ⟨Nat.land ip.b0 (maskByte n 0), Nat.land ip.b1 (maskByte n 1),
   Nat.land ip.b2 (maskByte n 2), Nat.land ip.b3 (maskByte n 3)⟩

/-- The Go stdlib `net.ParseCIDR` restricted to IPv4: split at the first
slash, parse a dotted-quad address and a mask length between 0 and 32, and
return the host address together with the masked network. -/
def parseCIDR (s : String) : Option (IPv4 × IPNet) := do
  let (addrCs, maskCs) ← splitSlash s.toList
  let ip ← parseIPv4 addrCs
  match dtoi maskCs with
  | (n, _, true, rest) =>
    if rest = [] ∧ n ≤ 32 then some (ip, ⟨maskIPv4 ip n, n⟩) else none
  | _ => none

/-! ## Constants of the source -/

/-- The fixed candidate gateway list `gatewayAddrs` of the source, in source
order. -/
def gatewayAddrs : List String :=
  ["10.1.42.1/16",
   "10.42.42.1/16",
   "172.16.42.1/24",
   "172.16.43.1/24",
   "172.16.44.1/24",
   "10.0.42.1/24",
   "10.0.43.1/24",
   "172.17.42.1/16",
   "10.0.42.1/16",
   "192.168.42.1/24",
   "192.168.43.1/24",
   "192.168.44.1/24"]

def mtu : Nat := 1514

def defaultBridgeName : String := "docker0-ovs"

/-- The initial value of the package-level `var OvsBridge`: only the name is
set; address and subnet are nil. -/
def OvsBridge : Bridge := ⟨defaultBridgeName, none, none⟩

/-- Model of `generateMacAddr`: first byte 0x02 (unicast, locally administered),
second byte 0x42, then the four bytes of the IPv4 address. -/
def generateMacAddr (ip : IPv4) : List Nat :=
  [0x02, 0x42, ip.b0, ip.b1, ip.b2, ip.b3]

end OvsBridgeGo

namespace OvsBridgeGo

/-! ## The environment of external collaborators

Every call the orchestrator makes to an external subsystem is answered by a
field of this record: the route table, the kernel interface queries and
operations, the OVSDB session, the random source, the address allocator and
the iptables binary.  A value of `Env` fixes one behaviour of the outside
world for the duration of one orchestrator call. -/
structure Env where
  /-- `CheckRouteOverlaps`: some error when the network overlaps a route. -/
  checkRouteOverlaps : IPNet → Option String
  /-- Whether `net.InterfaceByName(OvsBridge.Name)` initially finds the
  bridge interface (Go: iface non-nil and err nil). -/
  ifaceExists : Bool
  /-- Whether the OVSDB client `ovs` is connected (Go: `ovs != nil`). -/
  ovsConnected : Bool
  /-- Whether the second `net.InterfaceByName` lookup, made after asking the
  control plane to create the bridge, finds the interface. -/
  ifaceExistsAfterCreate : Bool
  /-- The error text of that second lookup when it fails. -/
  ifaceLookupErr : String
  /-- `GetIfaceAddr(OvsBridge.Name)` followed by `.String()`: the CIDR
  string of the existing interface address, or an error. -/
  getIfaceAddr : Except String String
  /-- `netlink.NetworkLinkUp` on the bridge interface. -/
  linkUp : Except String Unit
  /-- `installRule`, i.e. one run of the iptables binary on the given
  arguments: the combined output, or an error. -/
  installRule : List String → Except String String
  /-- The 32 random bytes read by `GenerateRandomName`, or a read error. -/
  randBytes : Except String (List Nat)
  /-- `ipam.Request`: the address allocated from the given subnet. -/
  ipamRequest : IPNet → IPv4
  /-- The result of the i-th kernel interface operation issued by
  `AddConnection` (indexed by position in the call sequence, then checked
  against the operation issued there). -/
  netOp : Nat → NetOp → Except String Unit

/-! ## Gateway selection (`getAvailableGwAddress`) -/

/-- The candidate loop of `getAvailableGwAddress`: parse each candidate,
return the first one whose `CheckRouteOverlaps` reports no overlap; when the
loop exhausts the list, the function falls through to its final
`return "", errors.New("No available GW address")`. -/
def gwScan (env : Env) : List String → Except String String
  | [] => Except.error "No available GW address"
  | addr :: rest =>
    match parseCIDR addr with
    | none => Except.error ("invalid CIDR address: " ++ addr)
    | some (_, dockerNetwork) =>
      match env.checkRouteOverlaps dockerNetwork with
      | none => Except.ok addr
      | some _ => gwScan env rest

/-- Model of `getAvailableGwAddress`.  For a non-empty `bridgeIP` the source parses
it, returns the parse error on failure, and on success assigns
`gwaddr = bridgeIP` — but then falls off the if/else into the final
`return "", errors.New("No available GW address")`, whose explicit return
values override the named ones, so the parsed CIDR is discarded and the
error is returned. -/
def getAvailableGwAddress (env : Env) (bridgeIP : String) : Except String String :=
  if bridgeIP.length ≠ 0 then
    match parseCIDR bridgeIP with
    | none => Except.error ("invalid CIDR address: " ++ bridgeIP)
    | some _ => Except.error "No available GW address"
  else
    gwScan env gatewayAddrs

/-! ## Firewall rules (`setupIPTables`) -/

/-- The POSTROUTING masquerade arguments built by `setupIPTables`. -/
def natRuleArgs (bridgeName bridgeIP : String) : List String :=
  ["-t", "nat", "-A", "POSTROUTING", "-s", bridgeIP, "!", "-o", bridgeName,
   "-j", "MASQUERADE"]

/-- The outbound FORWARD acceptance arguments built by `setupIPTables`. -/
def outboundRuleArgs (bridgeName : String) : List String :=
  ["-A", "FORWARD", "-i", bridgeName, "!", "-o", bridgeName, "-j", "ACCEPT"]

/-- The inbound established/related FORWARD acceptance arguments built by
`setupIPTables`. -/
def inboundRuleArgs (bridgeName : String) : List String :=
  ["-A", "FORWARD", "-o", bridgeName, "-m", "conntrack", "--ctstate",
   "RELATED,ESTABLISHED", "-j", "ACCEPT"]

/-- Model of `setupIPTables`: run the three rules in order, aborting at the first
failing invocation or the first non-empty output.  Also returns the list of
argument vectors actually passed to the iptables binary. -/
def setupIPTables (env : Env) (bridgeName bridgeIP : String) :
    Except String Unit × List (List String) :=
  match env.installRule (natRuleArgs bridgeName bridgeIP) with
  | Except.error e =>
    (Except.error ("Unable to enable network bridge NAT: " ++ e),
     [natRuleArgs bridgeName bridgeIP])
  | Except.ok output =>
    if output.length ≠ 0 then
      (Except.error ("Error disabling intercontainer communication: " ++ output),
       [natRuleArgs bridgeName bridgeIP])
    else
      match env.installRule (outboundRuleArgs bridgeName) with
      | Except.error e =>
        (Except.error ("Unable to enable network bridge NAT: " ++ e),
         [natRuleArgs bridgeName bridgeIP, outboundRuleArgs bridgeName])
      | Except.ok output2 =>
        if output2.length ≠ 0 then
          (Except.error ("Error disabling intercontainer communication: " ++ output2),
           [natRuleArgs bridgeName bridgeIP, outboundRuleArgs bridgeName])
        else
          match env.installRule (inboundRuleArgs bridgeName) with
          | Except.error e =>
            (Except.error ("Unable to enable network bridge NAT: " ++ e),
             [natRuleArgs bridgeName bridgeIP, outboundRuleArgs bridgeName,
              inboundRuleArgs bridgeName])
          | Except.ok output3 =>
            if output3.length ≠ 0 then
              (Except.error ("Error disabling intercontainer communication: " ++ output3),
               [natRuleArgs bridgeName bridgeIP, outboundRuleArgs bridgeName,
                inboundRuleArgs bridgeName])
            else
              (Except.ok (),
               [natRuleArgs bridgeName bridgeIP, outboundRuleArgs bridgeName,
                inboundRuleArgs bridgeName])

/-! ## Bridge lifecycle (`CreateBridge`) -/

/-- Model of `createBridgeIface`: fails when the OVSDB session is down; otherwise
asks the control plane to create the bridge (result unchecked in the
source) and sleeps one second. -/
def createBridgeIface (env : Env) (_name : String) : Except String Unit :=
  if env.ovsConnected then Except.ok () else Except.error "OVS not connected"

/-- Model of `CreateBridge`.  Returns the Go error value, the updated package-level
`OvsBridge` state, and the iptables argument vectors issued.  Mirrors the
source exactly, including: the existing-interface branch overwriting the
selected gateway CIDR; the assignment of `OvsBridge.IP` and
`OvsBridge.Subnet` happening before the netlink calls; and the
`NetworkLinkAddIp` result being discarded (the source tests the stale `err`
from the preceding `ParseCIDR`, which is nil at that point). -/
def CreateBridge (env : Env) (br : Bridge) (bridgeIP : String) :
    Except String Unit × Bridge × List (List String) :=
  match getAvailableGwAddress env bridgeIP with
  | Except.error _ =>
    (Except.error ("Could not find a free IP address range for '" ++ br.Name ++ "'"),
     br, [])
  | Except.ok gwaddr =>
    let resolved : Except String String :=
      if env.ifaceExists then
        match env.getIfaceAddr with
        | Except.error e => Except.error e
        | Except.ok addr => Except.ok addr
      else
        match createBridgeIface env br.Name with
        | Except.error e => Except.error e
        | Except.ok _ =>
          if env.ifaceExistsAfterCreate then Except.ok gwaddr
          else Except.error env.ifaceLookupErr
    match resolved with
    | Except.error e => (Except.error e, br, [])
    | Except.ok ifaceAddr =>
      match parseCIDR ifaceAddr with
      | none => (Except.error ("invalid CIDR address: " ++ ifaceAddr), br, [])
      | some (ipAddr, ipNet) =>
        let br2 : Bridge := { br with IP := some ipAddr, Subnet := some ipNet }
        match env.linkUp with
        | Except.error e =>
          (Except.error ("Unable to start network bridge: " ++ e), br2, [])
        | Except.ok _ =>
          match setupIPTables env br2.Name (ipString br2.IP) with
          | (Except.error e, trace) => (Except.error e, br2, trace)
          | (Except.ok _, trace) => (Except.ok (), br2, trace)

/-! ## Peer tunnels (`AddPeer`, `DeletePeer`) -/

/-- Model of `AddPeer`: requires a live OVSDB session, then asks the control plane
for a vxlan tunnel port named by prefixing the peer address. -/
def AddPeer (env : Env) (br : Bridge) (peerIp : String) :
    Except String Unit × List CpCall :=
  if env.ovsConnected then
    (Except.ok (), [CpCall.addVxlan br.Name ("vxlan-" ++ peerIp) peerIp])
  else (Except.error "OVS not connected", [])

/-- Model of `DeletePeer`: requires a live OVSDB session, then asks the control
plane to delete the vxlan tunnel port named by prefixing the peer
address. -/
def DeletePeer (env : Env) (br : Bridge) (peerIp : String) :
    Except String Unit × List CpCall :=
  if env.ovsConnected then
    (Except.ok (), [CpCall.delPort br.Name ("vxlan-" ++ peerIp)])
  else (Except.error "OVS not connected", [])

/-! ## Connection provisioning (`AddConnection`) -/

/-- Model of `GenerateRandomName`: read 32 random bytes, hex encode, truncate to
`size` characters and prepend the prefix (the Go parameter is named
prefix). -/
def GenerateRandomName (env : Env) (pfx : String) (size : Nat) :
    Except String String :=
  match env.randBytes with
  | Except.error e => Except.error e
  | Except.ok id => Except.ok (pfx ++ String.mk ((hexEncodeChars id).take size))

/-- Model of `createOvsInternalPort`: generate the random port name, then require a
live OVSDB session, then ask the control plane for an internal port (result
unchecked in the source). -/
def createOvsInternalPort (env : Env) (pfx bridge : String) :
    Except String String :=
  match GenerateRandomName env pfx 7 with
  | Except.error e => Except.error e
  | Except.ok port =>
    if env.ovsConnected then Except.ok port
    else Except.error "OVS not connected"

/-- Run a sequence of kernel interface operations in order, stopping at the
first failure; returns the first error (if any) and the operations actually
issued, in order.  The counter numbers the calls so the environment can
answer each position independently. -/
def runOps (env : Env) : Nat → List NetOp → Except String Unit × List NetOp
  | _, [] => (Except.ok (), [])
  | k, op :: rest =>
    match env.netOp k op with
    | Except.error e => (Except.error e, [op])
    | Except.ok _ =>
      match runOps env (k + 1) rest with
      | (r, trace) => (r, op :: trace)

/-- The three kernel operations `AddConnection` performs before moving into
the namespace context: MTU, up, namespace reassignment. -/
def preNsSteps (port : String) (nspid : Int) : List NetOp :=
  [NetOp.setMtu port mtu, NetOp.interfaceUp port, NetOp.setNamespacePid port nspid]

/-- The six in-namespace kernel operations of `AddConnection`, in source
order: down, rename (to the same name in the source), set address, set
hardware address, up, default route via the gateway. -/
def nsSteps (port ipStr macStr gwStr : String) : List NetOp :=
  [NetOp.interfaceDown port, NetOp.changeName port port,
   NetOp.setIp port ipStr, NetOp.setMac port macStr,
   NetOp.interfaceUp port, NetOp.setDefaultGateway gwStr port]

/-- The full kernel-operation sequence of `AddConnection`. -/
def connSteps (port : String) (nspid : Int) (ipStr macStr gwStr : String) :
    List NetOp :=
  preNsSteps port nspid ++ nsSteps port ipStr macStr gwStr

/-- Model of `AddConnection`.  Guard on an empty bridge name; create the internal
port; dereference the package-level `*OvsBridge.Subnet` (a nil-pointer
panic when `CreateBridge` has not set it); allocate an address; build the
connection record; then the ordered kernel-operation sequence, aborting at
the first failure.  Returns the outcome plus the kernel operations
issued. -/
def AddConnection (env : Env) (br : Bridge) (nspid : Int) :
    Outcome OvsConnection × List NetOp :=
  let bridge := br.Name
  if bridge = "" then (Outcome.err "bridge is not available", [])
  else
    match createOvsInternalPort env "ovs" bridge with
    | Except.error e => (Outcome.err e, [])
    | Except.ok portName =>
      match br.Subnet with
      | none => (Outcome.nilDeref, [])
      | some sn =>
        let ip := env.ipamRequest sn
        let subnet := ipNetToString sn
        let mac := hwAddrString (generateMacAddr ip)
        let gatewayIp := ipString br.IP
        let subnetPrefix := subnet.drop (subnet.length - 3)
        let conn : OvsConnection :=
          ⟨portName, ipv4String ip, subnetPrefix, mac, gatewayIp⟩
        match runOps env 0 (connSteps portName nspid (ipv4String ip) mac gatewayIp) with
        | (Except.error e, trace) => (Outcome.err e, trace)
        | (Except.ok _, trace) => (Outcome.ok conn, trace)

end OvsBridgeGo

deriving instance DecidableEq for Except

namespace OvsBridgeGo

/-! ## Concrete environments used to evaluate the model -/

/-- A benign world: no route overlaps, no pre-existing bridge interface, a
live OVSDB session, deterministic (all-zero) random bytes, a fixed
allocation, and every external operation succeeding. -/
def envBase : Env where
  checkRouteOverlaps := fun _ => none
  ifaceExists := false
  ovsConnected := true
  ifaceExistsAfterCreate := true
  ifaceLookupErr := ""
  getIfaceAddr := Except.ok "192.168.5.1/24"
  linkUp := Except.ok ()
  installRule := fun _ => Except.ok ""
  randBytes := Except.ok (List.replicate 32 0)
  ipamRequest := fun _ => ⟨10, 1, 0, 2⟩
  netOp := fun _ _ => Except.ok ()

/-- The benign world with the bridge interface already existing, configured
with the address 192.168.5.1/24. -/
def envExisting : Env := { envBase with ifaceExists := true }

/-- The benign world where every candidate range overlaps a route. -/
def envAllOverlap : Env :=
  { envBase with checkRouteOverlaps := fun _ => some "conflict" }

/-- The benign world where the sixth kernel operation of `AddConnection`
(the in-namespace address assignment) fails. -/
def envFailSetIp : Env :=
  { envBase with netOp := fun k _ => if k = 5 then Except.error "boom" else Except.ok () }

/-- The world with no live OVSDB session. -/
def envNoOvs : Env := { envBase with ovsConnected := false }

/-- The bridge state after a successful `CreateBridge` in the benign world:
the first candidate 10.1.42.1/16 is selected. -/
def bridgeAfterCreate : Bridge :=
  ⟨defaultBridgeName, some ⟨10, 1, 42, 1⟩, some ⟨⟨10, 1, 0, 0⟩, 16⟩⟩

/-! ## Characterisation lemmas -/

/-- A candidate is selectable when it parses and the route-overlap checker
reports no overlap for its network. -/
def gwFree (env : Env) (a : String) : Bool :=
  match parseCIDR a with
  | some (_, n) => (env.checkRouteOverlaps n).isNone
  | none => false

theorem gwScan_eq_find (env : Env) (l : List String)
    (h : ∀ a ∈ l, (parseCIDR a).isSome = true) :
    gwScan env l =
      match l.find? (gwFree env) with
      | some a => Except.ok a
      | none => Except.error "No available GW address" := by
  induction l with
  | nil => rfl
  | cons addr rest ih =>
    have ha := h addr (List.mem_cons_self addr rest)
    obtain ⟨⟨ip, n⟩, hp⟩ := Option.isSome_iff_exists.mp ha
    by_cases ho : env.checkRouteOverlaps n = none
    · have hpred : gwFree env addr = true := by simp [gwFree, hp, ho]
      rw [List.find?_cons_of_pos _ hpred]
      simp [gwScan, hp, ho]
    · obtain ⟨e, he⟩ := Option.ne_none_iff_exists'.mp ho
      have hpred : ¬ gwFree env addr = true := by simp [gwFree, hp, he]
      rw [List.find?_cons_of_neg _ hpred]
      rw [← ih (fun a haa => h a (List.mem_cons_of_mem _ haa))]
      simp [gwScan, hp, he]

theorem runOps_ok (env : Env) (l : List NetOp) (k : Nat)
    (h : ∀ i, i < l.length → env.netOp (k + i) (l.getD i default) = Except.ok ()) :
    runOps env k l = (Except.ok (), l) := by
  induction l generalizing k with
  | nil => rfl
  | cons op rest ih =>
    have h0 := h 0 (Nat.succ_pos _)
    rw [Nat.add_zero, List.getD_cons_zero] at h0
    simp only [runOps, h0]
    rw [ih (k + 1) (fun i hi => by
      have hs := h (i + 1) (Nat.succ_lt_succ hi)
      rw [List.getD_cons_succ] at hs
      rw [show k + (i + 1) = k + 1 + i from by omega] at hs
      exact hs)]

theorem runOps_fail (env : Env) (l : List NetOp) (k j : Nat) (e : String)
    (hj : j < l.length)
    (hok : ∀ i, i < j → env.netOp (k + i) (l.getD i default) = Except.ok ())
    (herr : env.netOp (k + j) (l.getD j default) = Except.error e) :
    runOps env k l = (Except.error e, l.take (j + 1)) := by
  induction l generalizing k j with
  | nil => exact absurd hj (Nat.not_lt_zero j)
  | cons op rest ih =>
    cases j with
    | zero =>
      rw [Nat.add_zero, List.getD_cons_zero] at herr
      simp [runOps, herr]
    | succ j' =>
      have h0 := hok 0 (Nat.succ_pos _)
      rw [Nat.add_zero, List.getD_cons_zero] at h0
      rw [List.getD_cons_succ] at herr
      rw [show k + (j' + 1) = k + 1 + j' from by omega] at herr
      simp only [runOps, h0]
      rw [ih (k + 1) j' (Nat.lt_of_succ_lt_succ hj)
        (fun i hi => by
          have hs := hok (i + 1) (Nat.succ_lt_succ hi)
          rw [List.getD_cons_succ] at hs
          rw [show k + (i + 1) = k + 1 + i from by omega] at hs
          exact hs)
        herr]
      simp

theorem runOps_append_ok (env : Env) (l1 l2 : List NetOp) (k : Nat)
    (h : ∀ i, i < l1.length → env.netOp (k + i) (l1.getD i default) = Except.ok ()) :
    runOps env k (l1 ++ l2) =
      ((runOps env (k + l1.length) l2).1,
       l1 ++ (runOps env (k + l1.length) l2).2) := by
  induction l1 generalizing k with
  | nil => simp [runOps]
  | cons op rest ih =>
    have h0 := h 0 (Nat.succ_pos _)
    rw [Nat.add_zero, List.getD_cons_zero] at h0
    simp only [List.cons_append, runOps, h0, List.append_eq]
    rw [ih (k + 1) (fun i hi => by
      have hs := h (i + 1) (Nat.succ_lt_succ hi)
      rw [List.getD_cons_succ] at hs
      rw [show k + (i + 1) = k + 1 + i from by omega] at hs
      exact hs)]
    simp only [List.length_cons]
    rw [show k + (rest.length + 1) = k + 1 + rest.length from by omega]

/-- On success, `setupIPTables` issued exactly the three rule argument
vectors, in order. -/
theorem setupIPTables_ok_trace (env : Env) (bridgeName bridgeIP : String)
    (trace : List (List String))
    (h : setupIPTables env bridgeName bridgeIP = (Except.ok (), trace)) :
    trace = [natRuleArgs bridgeName bridgeIP, outboundRuleArgs bridgeName,
             inboundRuleArgs bridgeName] := by
  unfold setupIPTables at h
  split at h
  · exact absurd h (by simp)
  · split at h
    · exact absurd h (by simp)
    · split at h
      · exact absurd h (by simp)
      · split at h
        · exact absurd h (by simp)
        · split at h
          · exact absurd h (by simp)
          · split at h
            · exact absurd h (by simp)
            · exact (Prod.mk.injEq _ _ _ _ ▸ h).2.symm ▸ rfl

/-- Reduction of `AddConnection` past the guard, the port creation and the
subnet dereference, down to the kernel-operation sequence. -/
theorem AddConnection_runOps (env : Env) (br : Bridge) (nspid : Int)
    (port : String) (sn : IPNet)
    (hn : ¬ br.Name = "")
    (hport : createOvsInternalPort env "ovs" br.Name = Except.ok port)
    (hsn : br.Subnet = some sn) :
    AddConnection env br nspid =
      (match runOps env 0 (connSteps port nspid (ipv4String (env.ipamRequest sn))
          (hwAddrString (generateMacAddr (env.ipamRequest sn)))
          (ipString br.IP)) with
       | (Except.error e, trace) => (Outcome.err e, trace)
       | (Except.ok _, trace) =>
         (Outcome.ok ⟨port, ipv4String (env.ipamRequest sn),
            (ipNetToString sn).drop ((ipNetToString sn).length - 3),
            hwAddrString (generateMacAddr (env.ipamRequest sn)),
            ipString br.IP⟩, trace)) := by
  simp only [AddConnection, if_neg hn, hport, hsn]

/-- Reduction of `CreateBridge` when the bridge interface already exists:
after a successful gateway selection, the run is determined entirely by the
existing interface address; the selected CIDR does not occur in the
result. -/
theorem CreateBridge_existing (env : Env) (br : Bridge) (bip g a : String)
    (ip : IPv4) (sn : IPNet)
    (hex : env.ifaceExists = true)
    (hgw : getAvailableGwAddress env bip = Except.ok g)
    (ha : env.getIfaceAddr = Except.ok a)
    (hp : parseCIDR a = some (ip, sn)) :
    CreateBridge env br bip =
      (match env.linkUp with
       | Except.error e =>
         (Except.error ("Unable to start network bridge: " ++ e),
          { br with IP := some ip, Subnet := some sn }, [])
       | Except.ok _ =>
         match setupIPTables env br.Name (ipv4String ip) with
         | (Except.error e, trace) =>
           (Except.error e, { br with IP := some ip, Subnet := some sn }, trace)
         | (Except.ok _, trace) =>
           (Except.ok (), { br with IP := some ip, Subnet := some sn }, trace)) := by
  simp only [CreateBridge, hgw, hex, ha, hp, if_true, ipString]

/-- Claim C1: the specification promises that every explicit CIDR that
parses successfully is returned unchanged with no error and no overlap
check.  In the source, the explicit branch assigns the CIDR to the named
result `gwaddr` but then falls through to the final statement
`return "", errors.New("No available GW address")`, whose explicit values
override the named result: every explicit CIDR that parses yields the
No-available-GW-address error, for every environment (so no overlap check
can influence it). -/
theorem c1_explicit_cidr_always_errors (env : Env) (s : String)
    (hs : (parseCIDR s).isSome = true) :
    getAvailableGwAddress env s = Except.error "No available GW address" := by
  have hne : s ≠ "" := by
    intro h0
    subst h0
    exact absurd hs (by decide)
  have hlen : s.length ≠ 0 := by
    intro h0
    apply hne
    obtain ⟨data⟩ := s
    have hd : data = [] := List.length_eq_zero.mp h0
    subst hd
    rfl
  unfold getAvailableGwAddress
  rw [if_pos hlen]
  obtain ⟨p, hp⟩ := Option.isSome_iff_exists.mp hs
  rw [hp]

/-- Witness for C1 at the concrete failing input 10.1.42.1/16 (the first
spec scenario value) in the benign environment. -/
theorem c1_witness :
    getAvailableGwAddress envBase "10.1.42.1/16" =
      Except.error "No available GW address" :=
  c1_explicit_cidr_always_errors envBase "10.1.42.1/16" (by decide)

/-- Claim C2: gateway selection with the empty explicit CIDR returns the
first entry of the fixed candidate list whose network the route-overlap
checker reports as overlap-free, and fails with the No-available-GW-address
error when the checker reports an overlap for every candidate. -/
theorem c2_empty_selects_first_free (env : Env) :
    getAvailableGwAddress env "" =
      match gatewayAddrs.find? (gwFree env) with
      | some a => Except.ok a
      | none => Except.error "No available GW address" := by
  have h : ∀ a ∈ gatewayAddrs, (parseCIDR a).isSome = true := by decide
  have h0 : getAvailableGwAddress env "" = gwScan env gatewayAddrs := rfl
  rw [h0, gwScan_eq_find env gatewayAddrs h]

/-- Witness for C2: in the benign world the first candidate is selected; in
the all-overlapping world the error is returned. -/
theorem c2_witness :
    getAvailableGwAddress envBase "" = Except.ok "10.1.42.1/16"
    ∧ getAvailableGwAddress envAllOverlap "" =
        Except.error "No available GW address" :=
  ⟨(c2_empty_selects_first_free envBase).trans (by decide),
   (c2_empty_selects_first_free envAllOverlap).trans (by decide)⟩

/-- Claim C3: the derived hardware address has six bytes, its first byte
has the least-significant bit clear (unicast) and the second-least
significant bit set (locally administered), its last four bytes are exactly
the four bytes of the input IPv4 address, and distinct addresses yield
distinct hardware addresses. -/
theorem c3_generateMacAddr_spec :
    (∀ ip : IPv4,
      (generateMacAddr ip).length = 6
      ∧ (generateMacAddr ip).getD 0 0 % 2 = 0
      ∧ (generateMacAddr ip).getD 0 0 / 2 % 2 = 1
      ∧ (generateMacAddr ip).drop 2 = [ip.b0, ip.b1, ip.b2, ip.b3])
    ∧ ∀ ip1 ip2 : IPv4, ip1 ≠ ip2 →
        generateMacAddr ip1 ≠ generateMacAddr ip2 := by
  constructor
  · intro ip
    refine ⟨rfl, ?_, ?_, rfl⟩ <;> simp [generateMacAddr]
  · intro ip1 ip2 hne heq
    apply hne
    cases ip1
    cases ip2
    simp only [generateMacAddr, List.cons.injEq, and_true, true_and] at heq
    obtain ⟨h0, h1, h2, h3⟩ := heq
    subst h0
    subst h1
    subst h2
    subst h3
    rfl

/-- Witness for C3: two distinct concrete addresses map to distinct
hardware addresses. -/
theorem c3_witness :
    generateMacAddr ⟨10, 1, 42, 1⟩ ≠ generateMacAddr ⟨10, 1, 42, 2⟩ :=
  c3_generateMacAddr_spec.2 ⟨10, 1, 42, 1⟩ ⟨10, 1, 42, 2⟩ (by decide)

/-- Claim C5: the specification scenario expects `CreateBridge` with
explicit CIDR 10.1.42.1/16 and no pre-existing interface to succeed and
leave the bridge state at address 10.1.42.1, subnet 10.1.0.0/16 (the first
conjunct records that parsing indeed yields those values).  Because the
explicit-CIDR branch of gateway selection always errors (claim C1), the
call instead fails with the could-not-find-a-free-range error and leaves
the bridge state untouched, in every environment. -/
theorem c5_explicit_scenario_fails :
    parseCIDR "10.1.42.1/16" = some (⟨10, 1, 42, 1⟩, ⟨⟨10, 1, 0, 0⟩, 16⟩)
    ∧ ∀ env : Env, CreateBridge env OvsBridge "10.1.42.1/16" =
        (Except.error "Could not find a free IP address range for 'docker0-ovs'",
         OvsBridge, []) := by
  refine ⟨by decide, fun env => ?_⟩
  have h1 : getAvailableGwAddress env "10.1.42.1/16" =
      Except.error "No available GW address" := rfl
  unfold CreateBridge
  rw [h1]
  rfl

/-- Claim C8: both peer operations derive the same tunnel port name by
concatenating the fixed vxlan prefix with the peer address, and each
succeeds exactly when the OVSDB control-plane session is live (failing with
the OVS-not-connected error otherwise). -/
theorem c8_peer_ops (env : Env) (br : Bridge) (peerIp : String) :
    ((AddPeer env br peerIp).1 = Except.ok () ↔ env.ovsConnected = true)
    ∧ ((DeletePeer env br peerIp).1 = Except.ok () ↔ env.ovsConnected = true)
    ∧ (env.ovsConnected = true →
        (AddPeer env br peerIp).2 =
          [CpCall.addVxlan br.Name ("vxlan-" ++ peerIp) peerIp]
        ∧ (DeletePeer env br peerIp).2 =
          [CpCall.delPort br.Name ("vxlan-" ++ peerIp)]) := by
  cases h : env.ovsConnected <;> simp [AddPeer, DeletePeer, h]

/-- Witness for C8: in the benign world both operations address the same
derived port name. -/
theorem c8_witness :
    (AddPeer envBase OvsBridge "192.168.2.7").2 =
      [CpCall.addVxlan OvsBridge.Name ("vxlan-" ++ "192.168.2.7") "192.168.2.7"]
    ∧ (DeletePeer envBase OvsBridge "192.168.2.7").2 =
      [CpCall.delPort OvsBridge.Name ("vxlan-" ++ "192.168.2.7")] :=
  (c8_peer_ops envBase OvsBridge "192.168.2.7").2.2 rfl

/-- Claim C10: the bridge name is statically initialised to the fixed
default and never reassigned (in particular `CreateBridge` preserves it),
so the empty-name guard of `AddConnection` can never trigger; a call made
while the subnet is still nil therefore passes the guard and, as soon as
the internal port creation succeeds, hits the nil dereference of
`*OvsBridge.Subnet` instead of returning an error. -/
theorem c10_guard_never_triggers_nil_deref :
    OvsBridge.Name = defaultBridgeName
    ∧ OvsBridge.Subnet = none
    ∧ defaultBridgeName ≠ ""
    ∧ (∀ (env : Env) (br : Bridge) (bip : String),
        ((CreateBridge env br bip).2.1).Name = br.Name)
    ∧ (∀ (env : Env) (br : Bridge) (nspid : Int) (port : String),
        ¬ br.Name = "" → br.Subnet = none →
        createOvsInternalPort env "ovs" br.Name = Except.ok port →
        AddConnection env br nspid = (Outcome.nilDeref, [])) := by
  refine ⟨rfl, rfl, by decide, ?_, ?_⟩
  · intro env br bip
    simp only [CreateBridge]
    split
    · rfl
    · split
      · rfl
      · split
        · rfl
        · split
          · rfl
          · split <;> rfl
  · intro env br nspid port hn hs hp
    simp only [AddConnection, if_neg hn, hp, hs]

/-- Witness for C10: in the benign world, provisioning against the initial
bridge state reaches the nil dereference. -/
theorem c10_witness :
    AddConnection envBase OvsBridge 7 = (Outcome.nilDeref, []) :=
  c10_guard_never_triggers_nil_deref.2.2.2.2 envBase OvsBridge 7 "ovs0000000"
    (by decide) rfl (by decide)

/-- Claim C4 (the code deviates on explicit CIDRs): the first conjunct
shows a call with a parsing explicit CIDR and an existing bridge interface
failing outright — the existing address 192.168.5.1/24 is never consulted
because gateway selection already errored (claim C1), contradicting the
claim for explicit CIDRs.  The second conjunct proves the intended
behaviour for every call whose gateway selection succeeded: when the
interface exists, the resolved state comes from the existing interface
address, and the result is the same whatever explicit argument (and
selected CIDR) was passed. -/
theorem c4_existing_iface_wins :
    (CreateBridge envExisting OvsBridge "172.16.99.1/24" =
      (Except.error "Could not find a free IP address range for 'docker0-ovs'",
       OvsBridge, []))
    ∧ (∀ (env : Env) (br : Bridge) (bip g a : String) (ip : IPv4) (sn : IPNet),
        env.ifaceExists = true →
        getAvailableGwAddress env bip = Except.ok g →
        env.getIfaceAddr = Except.ok a →
        parseCIDR a = some (ip, sn) →
        (CreateBridge env br bip).2.1.IP = some ip
        ∧ (CreateBridge env br bip).2.1.Subnet = some sn
        ∧ ∀ (bip2 g2 : String), getAvailableGwAddress env bip2 = Except.ok g2 →
            CreateBridge env br bip = CreateBridge env br bip2) := by
  constructor
  · decide
  · intro env br bip g a ip sn hex hgw ha hp
    have key := CreateBridge_existing env br bip g a ip sn hex hgw ha hp
    refine ⟨?_, ?_, ?_⟩
    · rw [key]
      split
      · rfl
      · split <;> rfl
    · rw [key]
      split
      · rfl
      · split <;> rfl
    · intro bip2 g2 hgw2
      rw [key, CreateBridge_existing env br bip2 g2 a ip sn hex hgw2 ha hp]

/-- Witness for C4: with the interface existing and the empty explicit
CIDR (the only selection path that can succeed), the resolved state is the
existing interface address 192.168.5.1/24. -/
theorem c4_witness :
    (CreateBridge envExisting OvsBridge "").2.1.IP = some ⟨192, 168, 5, 1⟩
    ∧ (CreateBridge envExisting OvsBridge "").2.1.Subnet =
        some ⟨⟨192, 168, 5, 0⟩, 24⟩ := by
  have h := c4_existing_iface_wins.2 envExisting OvsBridge "" "10.1.42.1/16"
    "192.168.5.1/24" ⟨192, 168, 5, 1⟩ ⟨⟨192, 168, 5, 0⟩, 24⟩
    rfl (by decide) rfl (by decide)
  exact ⟨h.1, h.2.1⟩

/-- Claim C6: once `AddConnection` reaches the in-namespace phase, the six
kernel operations run in exactly the source order — down, rename, assign
address, assign hardware address, up, default route — and the first failing
operation aborts the call with the error of that operation: the issued-operation
trace is exactly the sequence up to and including the failing step, so no
later step runs and no completed step is undone; when all six succeed the
trace is the full sequence. -/
theorem c6_provision_order_and_abort (env : Env) (br : Bridge) (nspid : Int)
    (port : String) (sn : IPNet) (ipStr macStr gwStr : String)
    (hn : ¬ br.Name = "")
    (hport : createOvsInternalPort env "ovs" br.Name = Except.ok port)
    (hsn : br.Subnet = some sn)
    (hip : ipStr = ipv4String (env.ipamRequest sn))
    (hmac : macStr = hwAddrString (generateMacAddr (env.ipamRequest sn)))
    (hgw : gwStr = ipString br.IP)
    (hpre : ∀ i, i < 3 →
      env.netOp i ((preNsSteps port nspid).getD i default) = Except.ok ()) :
    (∀ j e, j < 6 →
      (∀ i, i < j → env.netOp (3 + i)
        ((nsSteps port ipStr macStr gwStr).getD i default) = Except.ok ()) →
      env.netOp (3 + j)
        ((nsSteps port ipStr macStr gwStr).getD j default) = Except.error e →
      AddConnection env br nspid =
        (Outcome.err e,
         preNsSteps port nspid ++ (nsSteps port ipStr macStr gwStr).take (j + 1)))
    ∧ ((∀ i, i < 6 → env.netOp (3 + i)
        ((nsSteps port ipStr macStr gwStr).getD i default) = Except.ok ()) →
      AddConnection env br nspid =
        (Outcome.ok ⟨port, ipStr,
           (ipNetToString sn).drop ((ipNetToString sn).length - 3), macStr, gwStr⟩,
         preNsSteps port nspid ++ nsSteps port ipStr macStr gwStr)) := by
  subst hip
  subst hmac
  subst hgw
  have hA := AddConnection_runOps env br nspid port sn hn hport hsn
  simp only [connSteps] at hA
  have e3 : (0 : Nat) + (preNsSteps port nspid).length = 3 := rfl
  constructor
  · intro j e hj hok herr
    rw [hA]
    rw [runOps_append_ok env (preNsSteps port nspid) _ 0
      (fun i hi => by rw [Nat.zero_add]; exact hpre i hi)]
    rw [e3]
    rw [runOps_fail env (nsSteps port (ipv4String (env.ipamRequest sn))
      (hwAddrString (generateMacAddr (env.ipamRequest sn))) (ipString br.IP))
      3 j e hj hok herr]
  · intro hall
    rw [hA]
    rw [runOps_append_ok env (preNsSteps port nspid) _ 0
      (fun i hi => by rw [Nat.zero_add]; exact hpre i hi)]
    rw [e3]
    rw [runOps_ok env (nsSteps port (ipv4String (env.ipamRequest sn))
      (hwAddrString (generateMacAddr (env.ipamRequest sn))) (ipString br.IP))
      3 hall]

/-- Witness for C6: with the in-namespace address assignment (third
in-namespace step, call index 5) failing, the call aborts with that error
and the trace stops right after the failing step. -/
theorem c6_witness :
    AddConnection envFailSetIp bridgeAfterCreate 42 =
      (Outcome.err "boom",
       preNsSteps "ovs0000000" 42 ++
        (nsSteps "ovs0000000" "10.1.0.2" "02:42:0a:01:00:02" "10.1.42.1").take 3) :=
  (c6_provision_order_and_abort envFailSetIp bridgeAfterCreate 42 "ovs0000000"
      ⟨⟨10, 1, 0, 0⟩, 16⟩ "10.1.0.2" "02:42:0a:01:00:02" "10.1.42.1"
      (by decide) (by decide) rfl (by decide) (by decide) (by decide)
      (by decide)).1 2 "boom" (by decide) (by decide) (by decide)

/-- Claim C7: a successful `AddConnection` returns a connection record
whose gateway field is the bridge address string and whose hardware-address
field is the string of the MAC derived from the allocated address; that MAC
carries the four bytes of the allocated address as its last four bytes. -/
theorem c7_connection_fields (env : Env) (br : Bridge) (nspid : Int)
    (conn : OvsConnection) (trace : List NetOp) (sn : IPNet)
    (hsn : br.Subnet = some sn)
    (hok : AddConnection env br nspid = (Outcome.ok conn, trace)) :
    conn.Gateway = ipString br.IP
    ∧ conn.Mac = hwAddrString (generateMacAddr (env.ipamRequest sn))
    ∧ (generateMacAddr (env.ipamRequest sn)).drop 2 =
        [(env.ipamRequest sn).b0, (env.ipamRequest sn).b1,
         (env.ipamRequest sn).b2, (env.ipamRequest sn).b3] := by
  by_cases hn : br.Name = ""
  · simp only [AddConnection, if_pos hn] at hok
    exact absurd hok (by simp)
  · cases hcp : createOvsInternalPort env "ovs" br.Name with
    | error e =>
      simp only [AddConnection, if_neg hn, hcp] at hok
      exact absurd hok (by simp)
    | ok port =>
      rw [AddConnection_runOps env br nspid port sn hn hcp hsn] at hok
      rcases hro : runOps env 0 (connSteps port nspid (ipv4String (env.ipamRequest sn))
          (hwAddrString (generateMacAddr (env.ipamRequest sn)))
          (ipString br.IP)) with ⟨r, tr⟩
      rw [hro] at hok
      cases r with
      | error e => exact absurd hok (by simp)
      | ok u =>
        simp only [Prod.mk.injEq, Outcome.ok.injEq] at hok
        obtain ⟨hc, -⟩ := hok
        subst hc
        exact ⟨rfl, rfl, rfl⟩

/-- Witness for C7: one successful run in the benign world. -/
theorem c7_witness :
    ("10.1.42.1" : String) = ipString bridgeAfterCreate.IP
    ∧ ("02:42:0a:01:00:02" : String) =
        hwAddrString (generateMacAddr (envBase.ipamRequest ⟨⟨10, 1, 0, 0⟩, 16⟩))
    ∧ (generateMacAddr (envBase.ipamRequest ⟨⟨10, 1, 0, 0⟩, 16⟩)).drop 2 =
        [(envBase.ipamRequest ⟨⟨10, 1, 0, 0⟩, 16⟩).b0,
         (envBase.ipamRequest ⟨⟨10, 1, 0, 0⟩, 16⟩).b1,
         (envBase.ipamRequest ⟨⟨10, 1, 0, 0⟩, 16⟩).b2,
         (envBase.ipamRequest ⟨⟨10, 1, 0, 0⟩, 16⟩).b3] :=
  c7_connection_fields envBase bridgeAfterCreate 42
    ⟨"ovs0000000", "10.1.0.2", "/16", "02:42:0a:01:00:02", "10.1.42.1"⟩
    (connSteps "ovs0000000" 42 "10.1.0.2" "02:42:0a:01:00:02" "10.1.42.1")
    ⟨⟨10, 1, 0, 0⟩, 16⟩ rfl (by decide)

/-- Claim C9 counterexample: in a successful benign run the bridge resolves
to address 10.1.42.1 with subnet 10.1.0.0/16, yet the source selector of
the masquerade rule (the argument after the -s flag) is the host address
string 10.1.42.1, not the subnet string 10.1.0.0/16, contradicting the
claim that the selector is the resolved subnet. -/
theorem c9_counterexample :
    (CreateBridge envBase OvsBridge "").1 = Except.ok ()
    ∧ (CreateBridge envBase OvsBridge "").2.1.Subnet = some ⟨⟨10, 1, 0, 0⟩, 16⟩
    ∧ ((CreateBridge envBase OvsBridge "").2.2.getD 0 []).getD 5 "" = "10.1.42.1"
    ∧ ipNetToString ⟨⟨10, 1, 0, 0⟩, 16⟩ = "10.1.0.0/16"
    ∧ ("10.1.42.1" : String) ≠ "10.1.0.0/16" :=
  ⟨by decide, by decide, by decide, by decide, by decide⟩

/-- Claim C9 as amended: every successful `CreateBridge` issues exactly
three iptables rule argument vectors — masquerade NAT, outbound FORWARD
acceptance, established/related FORWARD acceptance — and the masquerade
masquerade source selector is the resolved gateway IP address of the bridge (a host
address), not the subnet. -/
theorem c9_three_rules_masquerade_src_ip (env : Env) (br br2 : Bridge)
    (bip : String) (trace : List (List String))
    (h : CreateBridge env br bip = (Except.ok (), br2, trace)) :
    trace = [natRuleArgs br2.Name (ipString br2.IP), outboundRuleArgs br2.Name,
             inboundRuleArgs br2.Name] := by
  simp only [CreateBridge] at h
  split at h
  · exact absurd h (by simp)
  · split at h
    · exact absurd h (by simp)
    · split at h
      · exact absurd h (by simp)
      · split at h
        · exact absurd h (by simp)
        · split at h
          · exact absurd h (by simp)
          · rename_i heqIp heqSetup
            simp only [Prod.mk.injEq] at h
            obtain ⟨-, hbr, htr⟩ := h
            subst hbr
            subst htr
            exact setupIPTables_ok_trace env _ _ _ heqSetup

/-- Witness for C9 (amended): the concrete benign run issues exactly the
three rules with the gateway address as masquerade source. -/
theorem c9_witness :
    (CreateBridge envBase OvsBridge "").2.2 =
      [natRuleArgs bridgeAfterCreate.Name (ipString bridgeAfterCreate.IP),
       outboundRuleArgs bridgeAfterCreate.Name,
       inboundRuleArgs bridgeAfterCreate.Name] :=
  c9_three_rules_masquerade_src_ip envBase OvsBridge bridgeAfterCreate ""
    (CreateBridge envBase OvsBridge "").2.2 (by decide)

end OvsBridgeGo
